import Mathlib

/-!
Verification of the sql-tables query-building and result-shaping utilities.

The embedding follows the repository's two source areas:
* `schema/queries/sql.ts` — SQL fragment builders and `createTable`
  (embedded directly from the source);
* `table.ts` — insert builder, validators, predicates, reducers and the
  query adapter, whose implementation file is absent from the snapshot
  (only its test suite is present); those definitions are modelled from
  the specification, faithful to its wording, and checked against the
  behaviours the test suite pins down.
-/

namespace SqlTables

/-- Modelled from the spec: a column definition is a mapping from a column
name to a declared type tag (free-form string); `table.ts` is absent so the
shape follows the data-model section of the spec. -/
structure ColumnDef where
  tag : String
deriving DecidableEq, Repr

/-- Modelled from the spec: a row of an insert-or-select compound result;
only its `id` field is ever accessed by the reducer. -/
structure Row (α : Type) where
  id : α
deriving DecidableEq, Repr

instance {α : Type} [Inhabited α] : Inhabited (Row α) := ⟨⟨default⟩⟩

/-- Modelled from the spec: the record `\x7b cols, vals \x7d` returned by the
input validator. -/
structure PropVals (α : Type) where
  cols : List String
  vals : List α
deriving DecidableEq, Repr

/-- Modelled from the spec: a raw query result as the dynamic-language code
receives it — absent (`undefined`), an object with no `rows` field, an
object whose `rows` field is not an array, or an object whose `rows` field
is an array of rows. -/
inductive QueryResult (ρ : Type) where
  | absent : QueryResult ρ
  | noRowsField : QueryResult ρ
  | rowsNotArray : QueryResult ρ
  | rowsArray : List ρ → QueryResult ρ
deriving DecidableEq, Repr

/-- Modelled from the spec: the call a query adapter makes to the driver:
either `query(sql)` — the params argument omitted entirely — or
`query(sql, params)`.  The two constructors model the two call arities. -/
inductive QueryCall (π : Type) where
  | noParams (sql : String)
  | withParams (sql : String) (params : π)
deriving DecidableEq, Repr

/-- Modelled from the spec: `isValidResult(result)` returns true iff the
result is present, has a `rows` field, that field is an array, and its
length is greater than zero. -/
def isValidResult {ρ : Type} : QueryResult ρ → Bool
  | QueryResult.rowsArray rs => decide (0 < rs.length)
  | _ => false

/-- Modelled from the spec: `hasQueryError(state, element, index)` — the
left-fold step finding the first empty per-statement result: a state that is
already `≥ 0` short-circuits; an empty element flags its index; otherwise
the step yields `-1`. -/
def hasQueryError {α : Type} (state : Int) (element : List α) (index : Int) : Int :=
  if 0 ≤ state then state
  else if element.length = 0 then index
  else -1

/-- Modelled from the spec: the left-to-right fold of `hasQueryError` over a
compound result, starting from `-1`, indices supplied by position. -/
def hasQueryErrorFold {α : Type} (results : List (List α)) : Int :=
  (results.enum).foldl (fun s p => hasQueryError s p.2 (p.1 : Int)) (-1)

/-- Specification-side characterisation used in the theorems: the index of
the first empty element of a list of lists, if any. -/
def firstEmptyIdx {α : Type} : List (List α) → Option Nat
  | [] => none
  | r :: rest => if r.length = 0 then some 0 else (firstEmptyIdx rest).map (· + 1)

/-- Modelled from the spec: the error text reported when the per-statement
sequence at `index` of a compound result produced no row. -/
def compoundNoRowMessage (idColumns : List String) (index : Int) : String :=
  "expected " ++ toString idColumns.length ++
    " compound results but the result at position " ++ toString index ++
    " produced no row"

/-- Modelled from the spec: `createReduceCompoundInsertOrSelectResults(idColumns)`
returns a reducer over a compound result: scan with the `hasQueryError` fold;
if an empty per-statement sequence is found, fail with an error identifying
that position; otherwise extract the `id` of the first row of each
per-statement sequence, in order. -/
def createReduceCompoundInsertOrSelectResults {α : Type} (idColumns : List String) :
    List (List (Row α)) → Except String (List α) :=
  fun results =>
    let err := hasQueryErrorFold results
    if 0 ≤ err then
      Except.error (compoundNoRowMessage idColumns err)
    else
      Except.ok (results.filterMap (fun r => r.head?.map Row.id))

/-- Modelled from the spec: `validatePropValsForInput(schema, columns, values)`
keeps exactly the column/value pairs whose column name exists as a key of the
schema, preserving order and pairing; unknown columns are dropped silently. -/
def validatePropValsForInput {α : Type} (schema : List (String × ColumnDef))
    (columns : List String) (values : List α) : PropVals α :=
  let kept := (columns.zip values).filter (fun cv => schema.any (fun kv => kv.1 == cv.1))
  ⟨kept.map Prod.fst, kept.map Prod.snd⟩

/-- Modelled from the spec: `createInsertQuery(table, columns, values)` builds
`INSERT INTO <table> (<columns joined by comma-space>) VALUES ($1, ..., $n)`
with `n = values.length`, 1-based positional placeholders. -/
def createInsertQuery {α : Type} (table : String) (columns : List String)
    (values : List α) : String :=
  "INSERT INTO " ++ table ++ " (" ++ String.intercalate ", " columns ++
    ") VALUES (" ++
    String.intercalate ", "
      ((List.range values.length).map (fun i => "$" ++ toString (i + 1))) ++ ")"

/-- Modelled from the spec: `createPgQuery(client, sql, params?)` calls the
client's query operation with `sql`, passing `params` exactly when the caller
supplied one; with no params the call omits the argument entirely. -/
def createPgQuery {π ρ : Type} (client : QueryCall π → ρ) (sql : String)
    (params : Option π) : ρ :=
  match params with
  | none => client (QueryCall.noParams sql)
  | some p => client (QueryCall.withParams sql p)

/-- Modelled from the spec: `pluckRows` — the row-extraction helper: returns
the `rows` sequence of a valid result, and fails when the result is invalid
per the validity predicate. -/
def pluckRows {ρ : Type} (result : QueryResult ρ) : Except String (List ρ) :=
  match result with
  | QueryResult.rowsArray rs =>
      if 0 < rs.length then Except.ok rs else Except.error "invalid query result"
  | _ => Except.error "invalid query result"

/-! Embedded from `src/schema/queries/sql.ts`. -/

/-- `varChar(size)` from `sql.ts`. -/
def varChar (size : Nat) : String := "varchar(" ++ toString size ++ ")"

/-- `foreignKey(column, key)` from `sql.ts`. -/
def foreignKey (column key : String) : String :=
  "REFERENCES " ++ column ++ " (" ++ key ++ ")"

/-- `unique(columns)` from `sql.ts`. -/
def unique (columns : List String) : String :=
  "UNIQUE(" ++ String.intercalate ", " columns ++ ")"

/-- `primaryKey(columns)` from `sql.ts`. -/
def primaryKey (columns : List String) : String :=
  "PRIMARY KEY(" ++ String.intercalate ", " columns ++ ")"

/-- `foreignKeyComposite(columns, references, otherTable)` from `sql.ts`;
the thrown length-mismatch error becomes `Except.error`. -/
def foreignKeyComposite (columns references : List String)
    (otherTable : String) : Except String String :=
  if columns.length ≠ references.length then
    Except.error "foreignKeyComposite column/reference mismatch"
  else
    Except.ok ("FOREIGN KEY (" ++ String.intercalate ", " columns ++
      ") REFERENCES " ++ otherTable ++ " (" ++
      String.intercalate ", " references ++ ")")

/-- `alterTable(table)` from `sql.ts`. -/
def alterTable (table : String) : String := "ALTER TABLE " ++ table

/-- `addColumn(table)` from `sql.ts`. -/
def addColumn (table : String) : String := alterTable table ++ " ADD COLUMN"

/-- `alterColumn(table, column)` from `sql.ts`. -/
def alterColumn (table column : String) : String :=
  alterTable table ++ " ALTER COLUMN " ++ column

/-- `setNull(table, column)` from `sql.ts`. -/
def setNull (table column : String) : String :=
  alterColumn table column ++ " DROP NOT NULL"

/-- `setNotNull(table, column)` from `sql.ts`. -/
def setNotNull (table column : String) : String :=
  alterColumn table column ++ " SET NOT NULL"

/-- Whitespace trimming of both ends of a string, as the source's
`.trim()` call performs on the joined fragment text. -/
def trimString (s : String) : String :=
  String.mk (((s.data.dropWhile Char.isWhitespace).reverse.dropWhile
    Char.isWhitespace).reverse)

/-- `createTable(query, tableName, columnsAndConstraints)` from `sql.ts`:
builds the CREATE TABLE text (fragments joined with comma-space, the join
trimmed), executes it through the query adapter with no parameter argument,
and extracts the rows with `pluckRows`. -/
def createTable {π ρ : Type} (query : QueryCall π → QueryResult ρ)
    (tableName : String) (columnsAndConstraints : List String) :
    Except String (List ρ) :=
  let q := "CREATE TABLE " ++ tableName ++ " (" ++
    trimString (String.intercalate ", " columnsAndConstraints) ++ ");"
  pluckRows (query (QueryCall.noParams q))

/-! Helper lemmas. -/

theorem hasQueryError_of_nonneg {α : Type} {state : Int} (hs : 0 ≤ state)
    (element : List α) (index : Int) : hasQueryError state element index = state :=
  if_pos hs

theorem foldl_hasQueryError_of_nonneg {α : Type} (l : List (Nat × List α))
    {s : Int} (hs : 0 ≤ s) :
    l.foldl (fun acc p => hasQueryError acc p.2 (p.1 : Int)) s = s := by
  induction l with
  | nil => rfl
  | cons a l ih =>
      rw [List.foldl_cons, hasQueryError_of_nonneg hs]
      exact ih

theorem foldl_hasQueryError_enumFrom {α : Type} (l : List (List α)) (n : Nat) :
    (List.enumFrom n l).foldl (fun acc p => hasQueryError acc p.2 (p.1 : Int)) (-1) =
      (match firstEmptyIdx l with
       | some i => ((n + i : Nat) : Int)
       | none => -1) := by
  induction l generalizing n with
  | nil => rfl
  | cons r rest ih =>
      by_cases hr : r.length = 0
      · have hstep : hasQueryError (-1) r (n : Int) = (n : Int) := by
          simp [hasQueryError, hr]
        have hnn : (0 : Int) ≤ (n : Int) := Int.natCast_nonneg n
        rw [List.enumFrom_cons, List.foldl_cons, hstep,
          foldl_hasQueryError_of_nonneg _ hnn]
        simp [firstEmptyIdx, hr]
      · have hstep : hasQueryError (-1) r (n : Int) = -1 := by
          simp [hasQueryError, hr]
        rw [List.enumFrom_cons, List.foldl_cons, hstep, ih (n + 1)]
        simp only [firstEmptyIdx, hr, if_false]
        cases firstEmptyIdx rest with
        | none => rfl
        | some i =>
            show ((n + 1 + i : Nat) : Int) = ((n + (i + 1) : Nat) : Int)
            omega

theorem hasQueryErrorFold_eq {α : Type} (l : List (List α)) :
    hasQueryErrorFold l =
      (match firstEmptyIdx l with
       | some i => (i : Int)
       | none => -1) := by
  have h := foldl_hasQueryError_enumFrom l 0
  rw [hasQueryErrorFold, List.enum, h]
  cases firstEmptyIdx l with
  | none => rfl
  | some i => simp

theorem firstEmptyIdx_eq_none_iff {α : Type} (l : List (List α)) :
    firstEmptyIdx l = none ↔ ∀ r ∈ l, r ≠ [] := by
  induction l with
  | nil => simp [firstEmptyIdx]
  | cons r rest ih =>
      by_cases hr : r.length = 0
      · have : r = [] := List.length_eq_zero.mp hr
        subst this
        simp [firstEmptyIdx]
      · have hne : r ≠ [] := fun h => hr (by simp [h])
        simp [firstEmptyIdx, hr, Option.map_eq_none', ih, hne]

theorem filterMap_head_id {α : Type} [Inhabited α] (l : List (List (Row α)))
    (h : ∀ r ∈ l, r ≠ []) :
    l.filterMap (fun r => r.head?.map Row.id) =
      l.map (fun r => (r.headD default).id) := by
  induction l with
  | nil => rfl
  | cons r rest ih =>
      have hr : r ≠ [] := h r (List.mem_cons_self r rest)
      cases r with
      | nil => exact absurd rfl hr
      | cons a t =>
          rw [List.filterMap_cons, List.map_cons]
          simp only [List.head?_cons, Option.map_some]
          rw [ih (fun x hx => h x (List.mem_cons_of_mem _ hx))]
          rfl

theorem zip_map_fst_snd {α β : Type} (l : List (α × β)) :
    (l.map Prod.fst).zip (l.map Prod.snd) = l := by
  rw [List.zip_map']
  simp

theorem reduceCompound_eq_error {α : Type} (idColumns : List String)
    (results : List (List (Row α))) (i : Nat) (h : firstEmptyIdx results = some i) :
    createReduceCompoundInsertOrSelectResults idColumns results =
      Except.error (compoundNoRowMessage idColumns (i : Int)) := by
  have hfold := hasQueryErrorFold_eq results
  rw [h] at hfold
  simp only [createReduceCompoundInsertOrSelectResults]
  rw [hfold, if_pos (Int.natCast_nonneg i)]

theorem reduceCompound_eq_ok {α : Type} [Inhabited α] (idColumns : List String)
    (results : List (List (Row α))) (h : ∀ r ∈ results, r ≠ []) :
    createReduceCompoundInsertOrSelectResults idColumns results =
      Except.ok (results.map (fun r => (r.headD default).id)) := by
  have hfold := hasQueryErrorFold_eq results
  rw [(firstEmptyIdx_eq_none_iff results).mpr h] at hfold
  simp only [createReduceCompoundInsertOrSelectResults]
  rw [hfold, if_neg (by decide), filterMap_head_id results h]

/-! Claim theorems. -/

/-- Claim C1: for every table name, column-name list, and value list of the
same length as the column list, `createInsertQuery(table, columns, values)`
returns exactly `INSERT INTO <table> (<columns joined by comma-space>)
VALUES ($1, ..., $n)` where `n` equals the length of `values`, the
placeholders are 1-based and appear in the same order as the columns; in
particular for the two concrete examples of the test suite. -/
theorem createInsertQuery_shape {α : Type} (table : String) (columns : List String)
    (values : List α) (h : columns.length = values.length) :
    createInsertQuery table columns values =
      "INSERT INTO " ++ table ++ " (" ++ String.intercalate ", " columns ++
        ") VALUES (" ++
        String.intercalate ", "
          ((List.range columns.length).map (fun i => "$" ++ toString (i + 1))) ++ ")" ∧
    createInsertQuery "users" ["name"] (["jane"] : List String) =
      "INSERT INTO users (name) VALUES ($1)" ∧
    createInsertQuery "users" ["name", "rank"] (["jane", "major"] : List String) =
      "INSERT INTO users (name, rank) VALUES ($1, $2)" := by
  refine ⟨?_, by decide, by decide⟩
  rw [createInsertQuery, h]

theorem createInsertQuery_shape_witness :
    (["name"] : List String).length = (["jane"] : List String).length ∧
    createInsertQuery "users" ["name"] (["jane"] : List String) =
      "INSERT INTO users (name) VALUES ($1)" :=
  ⟨rfl, (createInsertQuery_shape "users" ["name"] (["jane"] : List String) rfl).2.1⟩

/-- Claim C2: for every schema, column list, and value list of the same
length, `validatePropValsForInput(schema, columns, values)` returns a record
`cols`/`vals` containing exactly the column/value pairs whose column name is
a key of the schema, preserving relative order and the positional pairing;
unknown columns are dropped silently with no error. -/
theorem validatePropValsForInput_filters {α : Type} (schema : List (String × ColumnDef))
    (columns : List String) (values : List α) (h : columns.length = values.length) :
    ((validatePropValsForInput schema columns values).cols.zip
        (validatePropValsForInput schema columns values).vals =
      (columns.zip values).filter (fun cv => schema.any (fun kv => kv.1 == cv.1))) ∧
    List.Sublist
      ((validatePropValsForInput schema columns values).cols.zip
        (validatePropValsForInput schema columns values).vals)
      (columns.zip values) ∧
    (∀ c ∈ (validatePropValsForInput schema columns values).cols,
      schema.any (fun kv => kv.1 == c) = true) ∧
    (validatePropValsForInput schema columns values).cols.length =
      (validatePropValsForInput schema columns values).vals.length := by
  have hz : (validatePropValsForInput schema columns values).cols.zip
      (validatePropValsForInput schema columns values).vals =
      (columns.zip values).filter (fun cv => schema.any (fun kv => kv.1 == cv.1)) :=
    zip_map_fst_snd _
  refine ⟨hz, ?_, ?_, ?_⟩
  · rw [hz]
    exact List.filter_sublist _
  · intro c hc
    obtain ⟨p, hp, hpc⟩ := List.mem_map.mp hc
    have hpred := (List.mem_filter.mp hp).2
    rw [← hpc]
    exact hpred
  · simp [validatePropValsForInput]

theorem validatePropValsForInput_filters_witness :
    (["name", "rank"] : List String).length = (["jane", "major"] : List String).length ∧
    (validatePropValsForInput [("name", ColumnDef.mk "String")] ["name", "rank"]
        (["jane", "major"] : List String)).cols.length =
      (validatePropValsForInput [("name", ColumnDef.mk "String")] ["name", "rank"]
        (["jane", "major"] : List String)).vals.length :=
  ⟨rfl, (validatePropValsForInput_filters [("name", ColumnDef.mk "String")]
    ["name", "rank"] (["jane", "major"] : List String) rfl).2.2.2⟩

/-- Claim C4: `isValidResult(result)` returns true iff the result is present,
has a `rows` field, that field is an array, and its length is greater than
zero; it returns false for an absent input, a missing rows field, a
non-array rows field, or an empty rows array. -/
theorem isValidResult_iff {ρ : Type} :
    (∀ result : QueryResult ρ,
      isValidResult result = true ↔
        ∃ rows, result = QueryResult.rowsArray rows ∧ 0 < rows.length) ∧
    isValidResult (QueryResult.absent : QueryResult ρ) = false ∧
    isValidResult (QueryResult.noRowsField : QueryResult ρ) = false ∧
    isValidResult (QueryResult.rowsNotArray : QueryResult ρ) = false ∧
    isValidResult (QueryResult.rowsArray ([] : List ρ)) = false ∧
    (∀ row : ρ, isValidResult (QueryResult.rowsArray [row]) = true) := by
  refine ⟨?_, rfl, rfl, rfl, rfl, fun row => rfl⟩
  intro result
  cases result with
  | absent => simp [isValidResult]
  | noRowsField => simp [isValidResult]
  | rowsNotArray => simp [isValidResult]
  | rowsArray rs => simp [isValidResult]

theorem isValidResult_iff_witness :
    isValidResult (QueryResult.rowsArray [()]) = true :=
  (isValidResult_iff (ρ := Unit)).2.2.2.2.2 ()

/-- Claim C5: `hasQueryError(state, element, index)` returns `state` whenever
`state ≥ 0`, otherwise `index` when the element is empty and `-1` when it is
not; the three concrete test cases hold; and the left fold starting from
`-1` ends in the index of the first empty element, or `-1` when none is
empty. -/
theorem hasQueryError_spec {α : Type} :
    (∀ (state : Int) (element : List α) (index : Int),
      (0 ≤ state → hasQueryError state element index = state) ∧
      (state < 0 → element.length = 0 → hasQueryError state element index = index) ∧
      (state < 0 → element.length ≠ 0 → hasQueryError state element index = -1)) ∧
    hasQueryError 0 ([] : List α) 7 = 0 ∧
    hasQueryError (-1) ([] : List α) 7 = 7 ∧
    (∀ x : α, hasQueryError (-1) [x] 7 = -1) ∧
    (∀ results : List (List α),
      hasQueryErrorFold results =
        (match firstEmptyIdx results with
         | some i => (i : Int)
         | none => -1)) := by
  refine ⟨?_, rfl, rfl, fun x => rfl, hasQueryErrorFold_eq⟩
  intro state element index
  refine ⟨fun hs => if_pos hs, fun hs he => ?_, fun hs he => ?_⟩
  · rw [hasQueryError, if_neg (by omega), if_pos he]
  · rw [hasQueryError, if_neg (by omega), if_neg he]

theorem hasQueryError_spec_witness :
    (0 : Int) ≤ 0 ∧ hasQueryError (0 : Int) ([] : List Unit) 7 = 0 :=
  ⟨le_refl 0, (hasQueryError_spec.1 0 ([] : List Unit) 7).1 (le_refl 0)⟩

/-- Claim C7: each simple SQL fragment builder is a pure deterministic string
template with exactly the spec's shape, the identifiers interpolated
verbatim with no escaping. -/
theorem sqlFragments_spec :
    (∀ size : Nat, varChar size = "varchar(" ++ toString size ++ ")") ∧
    (∀ column key : String,
      foreignKey column key = "REFERENCES " ++ column ++ " (" ++ key ++ ")") ∧
    (∀ columns : List String,
      unique columns = "UNIQUE(" ++ String.intercalate ", " columns ++ ")") ∧
    (∀ columns : List String,
      primaryKey columns = "PRIMARY KEY(" ++ String.intercalate ", " columns ++ ")") ∧
    (∀ table : String, alterTable table = "ALTER TABLE " ++ table) ∧
    (∀ table : String, addColumn table = alterTable table ++ " ADD COLUMN") ∧
    (∀ table column : String,
      alterColumn table column = alterTable table ++ " ALTER COLUMN " ++ column) ∧
    (∀ table column : String,
      setNull table column = alterColumn table column ++ " DROP NOT NULL") ∧
    (∀ table column : String,
      setNotNull table column = alterColumn table column ++ " SET NOT NULL") :=
  ⟨fun _ => rfl, fun _ _ => rfl, fun _ => rfl, fun _ => rfl, fun _ => rfl,
    fun _ => rfl, fun _ _ => rfl, fun _ _ => rfl, fun _ _ => rfl⟩

theorem sqlFragments_spec_witness :
    varChar 255 = "varchar(" ++ toString 255 ++ ")" :=
  sqlFragments_spec.1 255

/-- Claim C9: `createPgQuery(client, sql, params?)` invokes the client's query
operation with `sql`, passing `params` exactly when the caller supplied one;
with no params the call omits the parameter argument entirely, an arity
distinguishable from any supplied params value. -/
theorem createPgQuery_spec {π ρ : Type} (client : QueryCall π → ρ) (sql : String) :
    (∀ p : π, createPgQuery client sql (some p) = client (QueryCall.withParams sql p)) ∧
    createPgQuery client sql none = client (QueryCall.noParams sql) ∧
    (∀ (s : String) (p : π), QueryCall.noParams s ≠ QueryCall.withParams s p) :=
  ⟨fun _ => rfl, rfl, fun s p h => QueryCall.noConfusion h⟩

theorem createPgQuery_spec_witness :
    createPgQuery (fun c => c) "hello" (some (["a", "b"] : List String)) =
      QueryCall.withParams "hello" ["a", "b"] :=
  (createPgQuery_spec (fun c => c) "hello").1 ["a", "b"]

/-- Claim C3: the reducer returned by
`createReduceCompoundInsertOrSelectResults(idColumns)` fails iff at least one
per-statement row sequence is empty, the error identifying the first such
position found by the left-to-right `hasQueryError` fold; when every
per-statement sequence is non-empty it returns the `id` of the first row of
each sequence, in order; including the two concrete test cases. -/
theorem reduceCompound_spec {α : Type} [Inhabited α] (idColumns : List String)
    (results : List (List (Row α))) :
    ((∃ msg, createReduceCompoundInsertOrSelectResults idColumns results =
        Except.error msg) ↔ ∃ r ∈ results, r = []) ∧
    (∀ i : Nat, firstEmptyIdx results = some i →
      createReduceCompoundInsertOrSelectResults idColumns results =
        Except.error (compoundNoRowMessage idColumns (i : Int))) ∧
    ((∀ r ∈ results, r ≠ []) →
      createReduceCompoundInsertOrSelectResults idColumns results =
        Except.ok (results.map (fun r => (r.headD default).id))) ∧
    (∃ msg, createReduceCompoundInsertOrSelectResults ["col1", "col2"]
        ([[], []] : List (List (Row α))) = Except.error msg) ∧
    (∀ a b : α, createReduceCompoundInsertOrSelectResults ["col1", "col2"]
        ([[⟨a⟩], [⟨b⟩]] : List (List (Row α))) = Except.ok [a, b]) := by
  refine ⟨⟨?_, ?_⟩, reduceCompound_eq_error idColumns results,
    reduceCompound_eq_ok idColumns results, ⟨_, rfl⟩, fun a b => rfl⟩
  · rintro ⟨msg, hmsg⟩
    by_contra hne
    push_neg at hne
    rw [reduceCompound_eq_ok idColumns results hne] at hmsg
    exact Except.noConfusion hmsg
  · rintro ⟨r, hr, hre⟩
    cases hfe : firstEmptyIdx results with
    | none => exact absurd hre ((firstEmptyIdx_eq_none_iff results).mp hfe r hr)
    | some i => exact ⟨_, reduceCompound_eq_error idColumns results i hfe⟩

theorem reduceCompound_spec_witness :
    createReduceCompoundInsertOrSelectResults ["col1", "col2"]
      ([[⟨1⟩], [⟨2⟩]] : List (List (Row Int))) = Except.ok [1, 2] :=
  (reduceCompound_spec ["col1", "col2"]
    ([[⟨1⟩], [⟨2⟩]] : List (List (Row Int)))).2.2.2.2 1 2

/-- Claim C6: `foreignKeyComposite(columns, references, otherTable)` fails
with a length-mismatch error iff the two lists have different lengths; with
equal lengths it returns exactly
`FOREIGN KEY (<columns>) REFERENCES <otherTable> (<references>)`. -/
theorem foreignKeyComposite_spec (columns references : List String)
    (otherTable : String) :
    ((∃ msg, foreignKeyComposite columns references otherTable =
        Except.error msg) ↔ columns.length ≠ references.length) ∧
    (columns.length = references.length →
      foreignKeyComposite columns references otherTable =
        Except.ok ("FOREIGN KEY (" ++ String.intercalate ", " columns ++
          ") REFERENCES " ++ otherTable ++ " (" ++
          String.intercalate ", " references ++ ")")) := by
  by_cases h : columns.length = references.length
  · have hok : foreignKeyComposite columns references otherTable =
        Except.ok ("FOREIGN KEY (" ++ String.intercalate ", " columns ++
          ") REFERENCES " ++ otherTable ++ " (" ++
          String.intercalate ", " references ++ ")") := by
      simp only [foreignKeyComposite]
      rw [if_neg (not_not.mpr h)]
    refine ⟨⟨?_, fun hne => absurd h hne⟩, fun _ => hok⟩
    rintro ⟨msg, hmsg⟩
    rw [hok] at hmsg
    exact Except.noConfusion hmsg
  · have herr : foreignKeyComposite columns references otherTable =
        Except.error "foreignKeyComposite column/reference mismatch" := by
      simp only [foreignKeyComposite]
      rw [if_pos h]
    exact ⟨⟨fun _ => h, fun _ => ⟨_, herr⟩⟩, fun he => absurd he h⟩

theorem foreignKeyComposite_spec_witness :
    (["a", "b"] : List String).length = (["c", "d"] : List String).length ∧
    foreignKeyComposite ["a", "b"] ["c", "d"] "t" =
      Except.ok ("FOREIGN KEY (" ++ String.intercalate ", " ["a", "b"] ++
        ") REFERENCES " ++ "t" ++ " (" ++
        String.intercalate ", " ["c", "d"] ++ ")") :=
  ⟨rfl, (foreignKeyComposite_spec ["a", "b"] ["c", "d"] "t").2 rfl⟩

/-- Claim C8: `createTable(query, tableName, columnsAndConstraints)` builds
exactly `CREATE TABLE <tableName> (<fragments joined with comma-space,
whitespace-trimmed>);` with the text interpolated verbatim, executes it
through the supplied query adapter, and yields the extracted rows of the
result. -/
theorem createTable_executes_built_text {π ρ : Type}
    (query : QueryCall π → QueryResult ρ) (tableName : String)
    (columnsAndConstraints : List String) :
    createTable query tableName columnsAndConstraints =
      pluckRows (query (QueryCall.noParams
        ("CREATE TABLE " ++ tableName ++ " (" ++
          trimString (String.intercalate ", " columnsAndConstraints) ++ ");"))) ∧
    (∀ rows : List ρ,
      query (QueryCall.noParams
          ("CREATE TABLE " ++ tableName ++ " (" ++
            trimString (String.intercalate ", " columnsAndConstraints) ++ ");")) =
        QueryResult.rowsArray rows →
      0 < rows.length →
      createTable query tableName columnsAndConstraints = Except.ok rows) := by
  refine ⟨rfl, fun rows hq hlen => ?_⟩
  show pluckRows (query (QueryCall.noParams _)) = Except.ok rows
  rw [hq]
  simp [pluckRows, hlen]

theorem createTable_executes_built_text_witness :
    createTable
        ((fun _ => QueryResult.rowsArray [()]) : QueryCall Unit → QueryResult Unit)
        "users" ["id serial"] = Except.ok [()] :=
  (createTable_executes_built_text
    ((fun _ => QueryResult.rowsArray [()]) : QueryCall Unit → QueryResult Unit)
    "users" ["id serial"]).2 [()] rfl (by decide)

/-- Claim C10: `createTable` invokes the supplied query function with the
generated CREATE TABLE text as its only argument — no parameter array is
ever passed, so the DDL is executed fully unparameterized — and for an empty
constraint list the executed text is exactly `CREATE TABLE <tableName> ();`. -/
theorem createTable_unparameterized {π ρ : Type}
    (query : QueryCall π → QueryResult ρ) (tableName : String)
    (columnsAndConstraints : List String) :
    createTable query tableName columnsAndConstraints =
      pluckRows (query (QueryCall.noParams
        ("CREATE TABLE " ++ tableName ++ " (" ++
          trimString (String.intercalate ", " columnsAndConstraints) ++ ");"))) ∧
    (∀ (sql : String) (p : π), QueryCall.noParams sql ≠ QueryCall.withParams sql p) ∧
    ("CREATE TABLE " ++ tableName ++ " (" ++
        trimString (String.intercalate ", " ([] : List String)) ++ ");" =
      "CREATE TABLE " ++ tableName ++ " ();") := by
  refine ⟨rfl, fun sql p h => QueryCall.noConfusion h, ?_⟩
  show "CREATE TABLE " ++ tableName ++ " (" ++ "" ++ ");" =
    "CREATE TABLE " ++ tableName ++ " ();"
  rw [String.append_empty, String.append_assoc]
  rfl

theorem createTable_unparameterized_witness :
    "CREATE TABLE " ++ "users" ++ " (" ++
        trimString (String.intercalate ", " ([] : List String)) ++ ");" =
      "CREATE TABLE " ++ "users" ++ " ();" :=
  (createTable_unparameterized
    ((fun _ => QueryResult.rowsArray [()]) : QueryCall Unit → QueryResult Unit)
    "users" []).2.2

end SqlTables
